import Mathlib

/-!
Verification development for the vboot firmware/kernel signing utilities.

The definitions below are a shallow embedding of the C sources:
the BIOS file-type handler (fmap_limit_area, show/sign/recognize paths of
file_type_bios.c) and the kernel utility (KernelUtility::GenerateSignedImage).
External capabilities (fmap parsing, cryptographic primitives, cbfstool,
file I/O) are modelled as oracle fields of environment structures; all code
of the repository under verification is translated function by function.
Machine integers are Nat with explicit reduction modulo 2^32 where the C
computation can wrap.
-/

namespace Vboot

/-- 2^32, the modulus of uint32_t arithmetic. -/
def U32 : Nat := 4294967296

/-- An FMAP area header: offset, size and fixed-width name. -/
structure FmapAreaHeader where
  area_offset : Nat
  area_size : Nat
  area_name : String
deriving DecidableEq

/-- Embedding of fmap_limit_area (file_type_bios.c): the uint32 sum
`area_offset + area_size` is computed mod 2^32; if it wrapped
(`sum < area_size`) or exceeds the buffer length, the area is zeroed. -/
def fmap_limit_area (ah : FmapAreaHeader) (len : Nat) : FmapAreaHeader :=
  let sum := (ah.area_offset + ah.area_size) % U32
  if sum < ah.area_size ∨ sum > len then
    { ah with area_offset := 0, area_size := 0 }
  else
    ah

/-- The five logical BIOS FMAP components, in the order of enum
bios_component (matching the fmap_show_fn dispatch table). -/
inductive BiosComponent where
  | GBB
  | FW_MAIN_A
  | FW_MAIN_B
  | VBLOCK_A
  | VBLOCK_B
deriving DecidableEq

/-- Embedding of the fmap_name table: FMAP area name of each component. -/
def fmap_name : BiosComponent → String
  | .GBB => "GBB"
  | .FW_MAIN_A => "FW_MAIN_A"
  | .FW_MAIN_B => "FW_MAIN_B"
  | .VBLOCK_A => "VBLOCK_A"
  | .VBLOCK_B => "VBLOCK_B"

/-- Recognized file types (subset of enum futil_file_type used here). -/
inductive FutilFileType where
  | unknown
  | bios_image
deriving DecidableEq

/-- A memory-mapped image: raw bytes, mapped length, and the result of
fmap_find (none when no FMAP signature is present in the buffer). -/
structure Image where
  buf : List Nat
  len : Nat
  fmap : Option (List FmapAreaHeader)
deriving DecidableEq

/-- Embedding of fmap_find_by_name: linear lookup of an area by name in the
image's FMAP; none when the FMAP is absent or the name is not found. -/
def fmap_find_by_name (img : Image) (name : String) : Option FmapAreaHeader :=
  match img.fmap with
  | none => none
  | some areas => areas.find? (fun ah => ah.area_name == name)

/-- Embedding of ft_recognize_bios_image (file_type_bios.c): a buffer is a
BIOS image iff an FMAP is found and the GBB, FW_MAIN_A and VBLOCK_A areas
are all present in it. -/
def ft_recognize_bios_image (img : Image) : FutilFileType :=
  match img.fmap with
  | none => .unknown
  | some _ =>
    let gbb_slot := (fmap_find_by_name img (fmap_name .GBB)).isSome
    let fw_slot_a := (fmap_find_by_name img (fmap_name .FW_MAIN_A)).isSome
    let vblock_slot_a := (fmap_find_by_name img (fmap_name .VBLOCK_A)).isSome
    if gbb_slot && fw_slot_a && vblock_slot_a then .bios_image
    else .unknown

/-- C4: for every FMAP area in every buffer, if the area's declared
offset + length wraps the 32-bit sum or exceeds the buffer length, the
area is forced to offset 0 and length 0; in every case the clamped area
satisfies offset + length ≤ buffer length, so no downstream read through
it can pass the end of the buffer. -/
theorem fmap_limit_area_clamps (ah : FmapAreaHeader) (len : Nat)
    (hoff : ah.area_offset < U32) (hsz : ah.area_size < U32) :
    (U32 ≤ ah.area_offset + ah.area_size ∨ len < ah.area_offset + ah.area_size →
      (fmap_limit_area ah len).area_offset = 0 ∧
      (fmap_limit_area ah len).area_size = 0) ∧
    (fmap_limit_area ah len).area_offset + (fmap_limit_area ah len).area_size ≤ len := by
  unfold fmap_limit_area
  by_cases hwrap : U32 ≤ ah.area_offset + ah.area_size
  · have hmod : (ah.area_offset + ah.area_size) % U32
        = ah.area_offset + ah.area_size - U32 := by
      rw [Nat.mod_eq_sub_mod hwrap]
      exact Nat.mod_eq_of_lt (by omega)
    simp only [hmod]
    have hcond : ah.area_offset + ah.area_size - U32 < ah.area_size ∨
        ah.area_offset + ah.area_size - U32 > len := Or.inl (by omega)
    rw [if_pos hcond]
    exact ⟨fun _ => ⟨rfl, rfl⟩, Nat.zero_le len⟩
  · have hmod : (ah.area_offset + ah.area_size) % U32
        = ah.area_offset + ah.area_size :=
      Nat.mod_eq_of_lt (by omega)
    simp only [hmod]
    by_cases hgt : ah.area_offset + ah.area_size > len
    · have hcond : ah.area_offset + ah.area_size < ah.area_size ∨
          ah.area_offset + ah.area_size > len := Or.inr hgt
      rw [if_pos hcond]
      exact ⟨fun _ => ⟨rfl, rfl⟩, Nat.zero_le len⟩
    · have hcond : ¬ (ah.area_offset + ah.area_size < ah.area_size ∨
          ah.area_offset + ah.area_size > len) := by
        push_neg
        exact ⟨by omega, by omega⟩
      rw [if_neg hcond]
      refine ⟨fun h => ?_, by omega⟩
      rcases h with h | h
      · exact absurd h hwrap
      · exact absurd h hgt

/-- Witness for C4 at a concrete wrapped-sum area. -/
theorem fmap_limit_area_clamps_witness :
    (U32 ≤ 4294967295 + 2 ∨ (100 : Nat) < 4294967295 + 2 →
      (fmap_limit_area ⟨4294967295, 2, "X"⟩ 100).area_offset = 0 ∧
      (fmap_limit_area ⟨4294967295, 2, "X"⟩ 100).area_size = 0) ∧
    (fmap_limit_area ⟨4294967295, 2, "X"⟩ 100).area_offset +
      (fmap_limit_area ⟨4294967295, 2, "X"⟩ 100).area_size ≤ 100 :=
  fmap_limit_area_clamps ⟨4294967295, 2, "X"⟩ 100 (by decide) (by decide)

/-- C10: the BIOS recognizer classifies a buffer as a BIOS image exactly
when an FMAP is found and the GBB, FW_MAIN_A and VBLOCK_A areas are all
present in it; since the right-hand side never mentions FW_MAIN_B or
VBLOCK_B, the slot-B areas are never required for recognition. -/
theorem ft_recognize_bios_image_iff (img : Image) :
    ft_recognize_bios_image img = .bios_image ↔
      (img.fmap.isSome ∧
       (fmap_find_by_name img (fmap_name .GBB)).isSome ∧
       (fmap_find_by_name img (fmap_name .FW_MAIN_A)).isSome ∧
       (fmap_find_by_name img (fmap_name .VBLOCK_A)).isSome) := by
  unfold ft_recognize_bios_image
  cases hf : img.fmap with
  | none => simp [hf]
  | some areas =>
    simp only [hf, Option.isSome_some, true_and]
    by_cases h1 : (fmap_find_by_name img (fmap_name .GBB)).isSome <;>
      by_cases h2 : (fmap_find_by_name img (fmap_name .FW_MAIN_A)).isSome <;>
        by_cases h3 : (fmap_find_by_name img (fmap_name .VBLOCK_A)).isSome <;>
          simp [h1, h2, h3]

/-- Witness for C10: an image holding exactly the three mandatory areas
(and no slot-B areas) is recognized as a BIOS image. -/
theorem ft_recognize_bios_image_iff_witness :
    ft_recognize_bios_image
      ⟨[], 0, some [⟨0, 1, "GBB"⟩, ⟨1, 1, "FW_MAIN_A"⟩, ⟨2, 1, "VBLOCK_A"⟩]⟩
      = .bios_image :=
  (ft_recognize_bios_image_iff
    ⟨[], 0, some [⟨0, 1, "GBB"⟩, ⟨1, 1, "FW_MAIN_A"⟩, ⟨2, 1, "VBLOCK_A"⟩]⟩).mpr
    (by refine ⟨by decide, ?_, ?_, ?_⟩ <;> decide)

/-- A vb2 hash descriptor; only the algorithm id matters to the control flow
(VB2_HASH_INVALID = 0 means no hash present). -/
structure Vb2Hash where
  algo : Nat
deriving DecidableEq

/-- The vb2 invalid-hash algorithm id. -/
def VB2_HASH_INVALID : Nat := 0

/-- A vb2 signature; data_size is the number of body bytes it covers. -/
structure Vb2Signature where
  sig_id : Nat
  data_size : Nat
deriving DecidableEq

/-- A vb2 packed public key header. -/
structure PackedKey where
  key_offset : Nat
  key_size : Nat
  key_id : Nat
deriving DecidableEq

/-- A vb2 keyblock: declared total size, embedded data key, and the raw
bytes that a memcpy of the keyblock would copy. -/
structure Keyblock where
  keyblock_size : Nat
  data_key : PackedKey
  bytes : List Nat
deriving DecidableEq

/-- A vb2 firmware preamble: declared size, flags, firmware version, body
signature, and the raw bytes a memcpy of the preamble would copy. -/
structure FwPreamble where
  preamble_size : Nat
  flags : Nat
  firmware_version : Nat
  body_signature : Vb2Signature
  bytes : List Nat
deriving DecidableEq

/-- An opaque private signing key. -/
structure PrivKey where
  priv_id : Nat
deriving DecidableEq

/-- An opaque unpacked public key. -/
structure PubKey where
  pub_id : Nat
deriving DecidableEq

/-- One entry of bios_state_s.area: a view into the image plus the per-slot
signing parameters resolved so far. -/
structure BiosArea where
  offset : Nat := 0
  buf : List Nat := []
  len : Nat := 0
  is_valid : Bool := false
  flags : Nat := 0
  version : Nat := 0
  fw_size : Nat := 0
  metadata_hash : Vb2Hash := ⟨VB2_HASH_INVALID⟩
deriving DecidableEq

/-- Overwrite `src.length` bytes of `dst` starting at offset `off`
(the model of memcpy into a buffer view). -/
def memcpy_at (dst : List Nat) (off : Nat) (src : List Nat) : List Nat :=
  dst.take off ++ src ++ dst.drop (off + src.length)

/-- Oracle environment for the signing primitives consumed (not implemented)
by file_type_bios.c. -/
structure SignEnv where
  vb2_create_signature_from_hash : Vb2Hash → Option Vb2Signature
  vb2_calculate_signature : List Nat → PrivKey → Option Vb2Signature
  vb2_create_fw_preamble :
    Nat → Option PackedKey → Vb2Signature → PrivKey → Nat → Option FwPreamble
  write_loem : String → BiosArea → Nat

/-- Embedding of write_new_preamble (file_type_bios.c): computes the body
signature (over the metadata hash when present, else over the body bytes),
builds the new preamble, and only if keyblock + preamble fit in the VBLOCK
area copies both into it; on any failure the area bytes are untouched.
Returns (retval, VBLOCK buffer after the call). -/
def write_new_preamble (env : SignEnv) (kernel_subkey : Option PackedKey)
    (vblock fw_body : BiosArea) (signkey : PrivKey) (keyblock : Keyblock) :
    Nat × List Nat :=
  let body_sig :=
    if fw_body.metadata_hash.algo ≠ VB2_HASH_INVALID then
      env.vb2_create_signature_from_hash fw_body.metadata_hash
    else
      env.vb2_calculate_signature (fw_body.buf.take fw_body.len) signkey
  match body_sig with
  | none => (1, vblock.buf)
  | some bs =>
    match env.vb2_create_fw_preamble vblock.version kernel_subkey bs signkey
        vblock.flags with
    | none => (1, vblock.buf)
    | some preamble =>
      if keyblock.keyblock_size + preamble.preamble_size > vblock.len then
        (1, vblock.buf)
      else
        let more := keyblock.keyblock_size
        let b1 := memcpy_at vblock.buf 0 (keyblock.bytes.take more)
        let b2 := memcpy_at b1 more (preamble.bytes.take preamble.preamble_size)
        (0, b2)

/-- C1: when the VBLOCK area is smaller than keyblock total size plus the
size of the preamble built for this slot, write_new_preamble fails
(retval 1) and the backing buffer is returned byte-for-byte unmodified. -/
theorem write_new_preamble_area_too_small (env : SignEnv)
    (kernel_subkey : Option PackedKey) (vblock fw_body : BiosArea)
    (signkey : PrivKey) (keyblock : Keyblock) (bs : Vb2Signature)
    (preamble : FwPreamble)
    (hsig : (if fw_body.metadata_hash.algo ≠ VB2_HASH_INVALID then
        env.vb2_create_signature_from_hash fw_body.metadata_hash
      else
        env.vb2_calculate_signature (fw_body.buf.take fw_body.len) signkey)
      = some bs)
    (hpre : env.vb2_create_fw_preamble vblock.version kernel_subkey bs signkey
        vblock.flags = some preamble)
    (hsmall : vblock.len < keyblock.keyblock_size + preamble.preamble_size) :
    write_new_preamble env kernel_subkey vblock fw_body signkey keyblock
      = (1, vblock.buf) := by
  unfold write_new_preamble
  rw [hsig]
  simp only [hpre, gt_iff_lt]
  rw [if_pos hsmall]

/-- Witness for C1: a concrete environment and a VBLOCK area 4 bytes shorter
than keyblock.keyblock_size + preamble.preamble_size. -/
theorem write_new_preamble_area_too_small_witness :
    write_new_preamble
      ⟨fun _ => some ⟨7, 16⟩, fun _ _ => some ⟨8, 16⟩,
        fun _ _ _ _ _ => some ⟨12, 0, 1, ⟨8, 16⟩, [5, 5, 5]⟩, fun _ _ => 0⟩
      none
      { offset := 0, buf := [1, 2, 3], len := 16 }
      { offset := 32, buf := [9, 9], len := 2 }
      ⟨0⟩ ⟨8, ⟨0, 0, 0⟩, [4, 4]⟩
      = (1, [1, 2, 3]) :=
  write_new_preamble_area_too_small
    ⟨fun _ => some ⟨7, 16⟩, fun _ _ => some ⟨8, 16⟩,
      fun _ _ _ _ _ => some ⟨12, 0, 1, ⟨8, 16⟩, [5, 5, 5]⟩, fun _ _ => 0⟩
    none
    { offset := 0, buf := [1, 2, 3], len := 16 }
    { offset := 32, buf := [9, 9], len := 2 }
    ⟨0⟩ ⟨8, ⟨0, 0, 0⟩, [4, 4]⟩ ⟨8, 16⟩ ⟨12, 0, 1, ⟨8, 16⟩, [5, 5, 5]⟩
    (by decide) rfl (by decide)

/-- Log/diagnostic events emitted by the sign path (the ERROR/WARN/INFO and
FATAL messages of file_type_bios.c that the claims talk about). -/
inductive LogItem where
  | errAreaNotFound (c : BiosComponent)
  | errSizeIncorrect (c : BiosComponent)
  | warnNoCbfs (c : BiosComponent)
  | warnKeyblockInvalid (c : BiosComponent)
  | warnPubkeyInvalid (c : BiosComponent)
  | warnDataKeyParse (c : BiosComponent)
  | errNoFit (c : BiosComponent)
  | warnPreambleInvalid (c : BiosComponent)
  | errFwLarger (c : BiosComponent)
  | errSomethingWrong
  | infoNoSlotB
  | fatalNoMetadataHash (c : BiosComponent)
deriving DecidableEq

/-- Embedding of struct bios_state_s: the five component areas, the current
loop component, and the root/recovery key views filled in by the GBB show
routine. -/
structure BiosState where
  aGBB : BiosArea := {}
  aFW_MAIN_A : BiosArea := {}
  aFW_MAIN_B : BiosArea := {}
  aVBLOCK_A : BiosArea := {}
  aVBLOCK_B : BiosArea := {}
  c : BiosComponent := .GBB
  rootkey : BiosArea := {}
  recovery_key : BiosArea := {}
deriving DecidableEq

/-- Read state.area[c]. -/
def BiosState.get (s : BiosState) : BiosComponent → BiosArea
  | .GBB => s.aGBB
  | .FW_MAIN_A => s.aFW_MAIN_A
  | .FW_MAIN_B => s.aFW_MAIN_B
  | .VBLOCK_A => s.aVBLOCK_A
  | .VBLOCK_B => s.aVBLOCK_B

/-- Write state.area[c]. -/
def BiosState.set (s : BiosState) : BiosComponent → BiosArea → BiosState
  | .GBB, a => { s with aGBB := a }
  | .FW_MAIN_A, a => { s with aFW_MAIN_A := a }
  | .FW_MAIN_B, a => { s with aFW_MAIN_B := a }
  | .VBLOCK_A, a => { s with aVBLOCK_A := a }
  | .VBLOCK_B, a => { s with aVBLOCK_B := a }

theorem BiosState.get_set_same (s : BiosState) (c : BiosComponent)
    (a : BiosArea) : (s.set c a).get c = a := by
  cases c <;> rfl

theorem BiosState.get_set_ne (s : BiosState) (c c2 : BiosComponent)
    (a : BiosArea) (h : c2 ≠ c) : (s.set c a).get c2 = s.get c2 := by
  cases c <;> cases c2 <;> first
    | exact absurd rfl h
    | rfl

/-- Embedding of the relevant fields of sign_option (futility command-line
state consumed by the BIOS sign path). -/
structure SignOption where
  flags_specified : Bool := false
  flags : Nat := 0
  version_specified : Bool := false
  version : Nat := 0
  signprivate : PrivKey := ⟨0⟩
  keyblock : Keyblock := ⟨0, ⟨0, 0, 0⟩, []⟩
  kernel_subkey : Option PackedKey := none
  loemid : Option String := none

/-- Oracle environment for keyblock/preamble parsing and verification
(vb2 library primitives consumed by prepare_slot). parse_keyblock and
parse_fw_preamble model the C pointer casts into the VBLOCK bytes;
sizeof_fw_preamble is the C constant sizeof(struct vb2_fw_preamble). -/
structure PrepEnv where
  parse_keyblock : List Nat → Keyblock
  parse_fw_preamble : List Nat → FwPreamble
  sizeof_fw_preamble : Nat
  vb2_verify_keyblock_hash : Keyblock → Nat → Bool
  vb2_packed_key_looks_ok : PackedKey → Nat → Bool
  vb2_unpack_key : PackedKey → Option PubKey
  vb2_verify_fw_preamble : FwPreamble → Nat → PubKey → Bool

/-- Embedding of the keyblock/preamble validation block of prepare_slot
(file_type_bios.c lines between the VBLOCK lookup and the `end:` label).
Takes the VBLOCK byte view, the VBLOCK area length and the firmware area
resolved so far; returns the verified preamble (none when keyblock_valid
stays 0), the possibly length-updated firmware area, and the diagnostics. -/
def vblock_checks (penv : PrepEnv) (vbytes : List Nat) (vlen : Nat)
    (fwArea : BiosArea) (vblock_c : BiosComponent) :
    Option FwPreamble × BiosArea × List LogItem :=
  let keyblock := penv.parse_keyblock vbytes
  if ¬ penv.vb2_verify_keyblock_hash keyblock vlen then
    (none, fwArea, [.warnKeyblockInvalid vblock_c])
  else if ¬ penv.vb2_packed_key_looks_ok keyblock.data_key
      (keyblock.data_key.key_offset + keyblock.data_key.key_size) then
    (none, fwArea, [.warnPubkeyInvalid vblock_c])
  else
    match penv.vb2_unpack_key keyblock.data_key with
    | none => (none, fwArea, [.warnDataKeyParse vblock_c])
    | some data_key =>
      if keyblock.keyblock_size + penv.sizeof_fw_preamble > vlen then
        (none, fwArea, [.errNoFit vblock_c])
      else
        let preamble := penv.parse_fw_preamble (vbytes.drop keyblock.keyblock_size)
        if ¬ penv.vb2_verify_fw_preamble preamble (vlen - keyblock.keyblock_size)
            data_key then
          (none, fwArea, [.warnPreambleInvalid vblock_c])
        else if fwArea.fw_size = 0 then
          if preamble.body_signature.data_size > fwArea.len then
            (none, fwArea, [.errFwLarger vblock_c])
          else
            (some preamble, { fwArea with len := preamble.body_signature.data_size }, [])
        else
          (some preamble, fwArea, [])

/-- Embedding of prepare_slot (file_type_bios.c): resolves the FW_MAIN and
VBLOCK areas of one slot, resolves the signed body length (fw_size if
non-zero, else the verified existing preamble's body size, else the full
area), validates the existing chain as a recoverable warning, and fills in
flags/version (caller-specified, else inherited, else 0 / 1).
Returns (retval, updated state, diagnostics). -/
def prepare_slot (penv : PrepEnv) (so : SignOption) (img : Image)
    (fw_c vblock_c : BiosComponent) (state : BiosState) :
    Nat × BiosState × List LogItem :=
  match fmap_find_by_name img (fmap_name fw_c) with
  | none => (1, state, [.errAreaNotFound fw_c])
  | some ah0 =>
    let ah := fmap_limit_area ah0 img.len
    let a1 := { state.get fw_c with
                buf := img.buf.drop ah.area_offset, is_valid := true }
    if a1.fw_size > ah.area_size then
      (1, state.set fw_c a1, [.errSizeIncorrect fw_c])
    else
      let a2 :=
        if a1.fw_size ≠ 0 then { a1 with len := a1.fw_size }
        else { a1 with len := ah.area_size }
      let log1 :=
        if a1.fw_size = 0 ∧ a1.metadata_hash.algo = VB2_HASH_INVALID then
          [LogItem.warnNoCbfs fw_c]
        else []
      let st1 := state.set fw_c a2
      match fmap_find_by_name img (fmap_name vblock_c) with
      | none => (1, st1, log1 ++ [.errAreaNotFound vblock_c])
      | some bh0 =>
        let bh := fmap_limit_area bh0 img.len
        let vbytes := img.buf.drop bh.area_offset
        let r := vblock_checks penv vbytes bh.area_size a2 vblock_c
        let flags :=
          if so.flags_specified then so.flags
          else match r.1 with
            | some p => p.flags
            | none => 0
        let version :=
          if so.version_specified then so.version
          else match r.1 with
            | some p => p.firmware_version
            | none => 1
        let v2 := { st1.get vblock_c with
                    buf := vbytes, len := bh.area_size,
                    flags := flags, version := version, is_valid := true }
        (0, (st1.set fw_c r.2.1).set vblock_c v2, log1 ++ r.2.2)

/-- The existing trust chain of a VBLOCK fails validation at one of the four
recoverable stages of prepare_slot: keyblock hash, data-key sanity/unpack,
keyblock+preamble fit, or preamble signature. -/
def chain_invalid (penv : PrepEnv) (vbytes : List Nat) (vlen : Nat) : Prop :=
  penv.vb2_verify_keyblock_hash (penv.parse_keyblock vbytes) vlen = false
  ∨ penv.vb2_packed_key_looks_ok (penv.parse_keyblock vbytes).data_key
      ((penv.parse_keyblock vbytes).data_key.key_offset +
        (penv.parse_keyblock vbytes).data_key.key_size) = false
  ∨ penv.vb2_unpack_key (penv.parse_keyblock vbytes).data_key = none
  ∨ vlen < (penv.parse_keyblock vbytes).keyblock_size + penv.sizeof_fw_preamble
  ∨ (∀ dk, penv.vb2_unpack_key (penv.parse_keyblock vbytes).data_key = some dk →
      penv.vb2_verify_fw_preamble
        (penv.parse_fw_preamble
          (vbytes.drop (penv.parse_keyblock vbytes).keyblock_size))
        (vlen - (penv.parse_keyblock vbytes).keyblock_size) dk = false)

theorem vblock_checks_of_invalid (penv : PrepEnv) (vbytes : List Nat)
    (vlen : Nat) (fwArea : BiosArea) (vblock_c : BiosComponent)
    (H : chain_invalid penv vbytes vlen) :
    (vblock_checks penv vbytes vlen fwArea vblock_c).1 = none ∧
    (vblock_checks penv vbytes vlen fwArea vblock_c).2.1 = fwArea := by
  by_cases h1 : penv.vb2_verify_keyblock_hash (penv.parse_keyblock vbytes) vlen
      = true
  · by_cases h2 : penv.vb2_packed_key_looks_ok
        (penv.parse_keyblock vbytes).data_key
        ((penv.parse_keyblock vbytes).data_key.key_offset +
          (penv.parse_keyblock vbytes).data_key.key_size) = true
    · cases h3 : penv.vb2_unpack_key (penv.parse_keyblock vbytes).data_key with
      | none => simp [vblock_checks, h1, h2, h3]
      | some dk =>
        by_cases h4 : (penv.parse_keyblock vbytes).keyblock_size +
            penv.sizeof_fw_preamble > vlen
        · simp [vblock_checks, h1, h2, h3, h4]
        · by_cases h5 : penv.vb2_verify_fw_preamble
              (penv.parse_fw_preamble
                (vbytes.drop (penv.parse_keyblock vbytes).keyblock_size))
              (vlen - (penv.parse_keyblock vbytes).keyblock_size) dk = true
          · exfalso
            rcases H with h | h | h | h | h
            · rw [h1] at h
              exact Bool.noConfusion h
            · rw [h2] at h
              exact Bool.noConfusion h
            · rw [h3] at h
              exact Option.noConfusion h
            · exact h4 h
            · rw [h dk h3] at h5
              exact Bool.noConfusion h5
          · simp [vblock_checks, h1, h2, h3, h4, h5]
    · simp [vblock_checks, h1, h2]
  · simp [vblock_checks, h1]

/-- C6: when both areas of a slot are found and the caller-resolved fw_size
fits, a VBLOCK whose existing keyblock or preamble fails validation (hash,
data-key, fit, or preamble-signature check) is a recoverable warning:
prepare_slot still returns 0, and with no caller flags/version the slot's
flags default to 0 and its version to 1. -/
theorem prepare_slot_invalid_chain_defaults (penv : PrepEnv) (so : SignOption)
    (img : Image) (fw_c vblock_c : BiosComponent) (state : BiosState)
    (ah0 bh0 : FmapAreaHeader)
    (hfw : fmap_find_by_name img (fmap_name fw_c) = some ah0)
    (hvb : fmap_find_by_name img (fmap_name vblock_c) = some bh0)
    (hfs : (state.get fw_c).fw_size ≤ (fmap_limit_area ah0 img.len).area_size)
    (H : chain_invalid penv
      (img.buf.drop (fmap_limit_area bh0 img.len).area_offset)
      (fmap_limit_area bh0 img.len).area_size) :
    (prepare_slot penv so img fw_c vblock_c state).1 = 0 ∧
    (so.flags_specified = false →
      ((prepare_slot penv so img fw_c vblock_c state).2.1.get vblock_c).flags
        = 0) ∧
    (so.version_specified = false →
      ((prepare_slot penv so img fw_c vblock_c state).2.1.get vblock_c).version
        = 1) := by
  have hvc := vblock_checks_of_invalid penv
    (img.buf.drop (fmap_limit_area bh0 img.len).area_offset)
    (fmap_limit_area bh0 img.len).area_size
  unfold prepare_slot
  simp only [hfw, hvb]
  have hnot : ¬ ({ state.get fw_c with
      buf := img.buf.drop (fmap_limit_area ah0 img.len).area_offset,
      is_valid := true } : BiosArea).fw_size
      > (fmap_limit_area ah0 img.len).area_size := by
    show ¬ (state.get fw_c).fw_size > (fmap_limit_area ah0 img.len).area_size
    omega
  rw [if_neg hnot]
  have hp : ∀ fwArea, (vblock_checks penv
      (img.buf.drop (fmap_limit_area bh0 img.len).area_offset)
      (fmap_limit_area bh0 img.len).area_size fwArea vblock_c).1 = none :=
    fun fwArea => (hvc fwArea vblock_c H).1
  simp only [hp, BiosState.get_set_same]
  refine ⟨trivial, ?_, ?_⟩ <;> intro h <;> simp [h]

/-- Concrete validation environment whose keyblock-hash check always fails
(used to instantiate the recoverable-warning theorems). -/
def failhash_penv : PrepEnv :=
  ⟨fun _ => ⟨0, ⟨0, 0, 0⟩, []⟩, fun _ => ⟨0, 0, 0, ⟨0, 0⟩, []⟩, 1,
    fun _ _ => false, fun _ _ => true, fun _ => some ⟨0⟩, fun _ _ _ => true⟩

/-- Concrete 8-byte image with a 4-byte FW_MAIN_A area and a 4-byte
VBLOCK_A area. -/
def slotA_img : Image :=
  ⟨[0, 0, 0, 0, 0, 0, 0, 0], 8,
   some [⟨0, 4, "FW_MAIN_A"⟩, ⟨4, 4, "VBLOCK_A"⟩]⟩

/-- Witness for C6: with a keyblock whose hash check fails and no
caller-specified flags/version, prepare_slot succeeds and defaults
flags to 0 and version to 1. -/
theorem prepare_slot_invalid_chain_defaults_witness :
    (prepare_slot failhash_penv {} slotA_img .FW_MAIN_A .VBLOCK_A {}).1 = 0 ∧
    (SignOption.flags_specified {} = false →
      ((prepare_slot failhash_penv {} slotA_img .FW_MAIN_A .VBLOCK_A
        {}).2.1.get .VBLOCK_A).flags = 0) ∧
    (SignOption.version_specified {} = false →
      ((prepare_slot failhash_penv {} slotA_img .FW_MAIN_A .VBLOCK_A
        {}).2.1.get .VBLOCK_A).version = 1) :=
  prepare_slot_invalid_chain_defaults failhash_penv {} slotA_img
    .FW_MAIN_A .VBLOCK_A {} ⟨0, 4, "FW_MAIN_A"⟩ ⟨4, 4, "VBLOCK_A"⟩
    (by decide) (by decide) (by decide)
    (by unfold chain_invalid; left; rfl)

/-- The existing trust chain of a VBLOCK passes every validation stage of
prepare_slot, unpacking to the data key dk. -/
def chain_valid (penv : PrepEnv) (vbytes : List Nat) (vlen : Nat)
    (dk : PubKey) : Prop :=
  penv.vb2_verify_keyblock_hash (penv.parse_keyblock vbytes) vlen = true
  ∧ penv.vb2_packed_key_looks_ok (penv.parse_keyblock vbytes).data_key
      ((penv.parse_keyblock vbytes).data_key.key_offset +
        (penv.parse_keyblock vbytes).data_key.key_size) = true
  ∧ penv.vb2_unpack_key (penv.parse_keyblock vbytes).data_key = some dk
  ∧ (penv.parse_keyblock vbytes).keyblock_size + penv.sizeof_fw_preamble ≤ vlen
  ∧ penv.vb2_verify_fw_preamble
      (penv.parse_fw_preamble
        (vbytes.drop (penv.parse_keyblock vbytes).keyblock_size))
      (vlen - (penv.parse_keyblock vbytes).keyblock_size) dk = true

theorem vblock_checks_keeps_fw_nonzero (penv : PrepEnv) (vbytes : List Nat)
    (vlen : Nat) (fwArea : BiosArea) (vblock_c : BiosComponent)
    (h : fwArea.fw_size ≠ 0) :
    (vblock_checks penv vbytes vlen fwArea vblock_c).2.1 = fwArea := by
  simp only [vblock_checks]
  repeat' split
  all_goals rfl

theorem vblock_checks_of_valid (penv : PrepEnv) (vbytes : List Nat)
    (vlen : Nat) (fwArea : BiosArea) (vblock_c : BiosComponent)
    (H : ∃ dk, chain_valid penv vbytes vlen dk)
    (hz : fwArea.fw_size = 0)
    (hds : (penv.parse_fw_preamble
        (vbytes.drop (penv.parse_keyblock vbytes).keyblock_size)
      ).body_signature.data_size ≤ fwArea.len) :
    vblock_checks penv vbytes vlen fwArea vblock_c =
      (some (penv.parse_fw_preamble
          (vbytes.drop (penv.parse_keyblock vbytes).keyblock_size)),
       { fwArea with len := (penv.parse_fw_preamble
          (vbytes.drop (penv.parse_keyblock vbytes).keyblock_size)
         ).body_signature.data_size },
       []) := by
  obtain ⟨dk, h1, h2, h3, h4, h5⟩ := H
  have h4x : ¬ ((penv.parse_keyblock vbytes).keyblock_size +
      penv.sizeof_fw_preamble > vlen) := by omega
  have hdsx : ¬ ((penv.parse_fw_preamble
      (vbytes.drop (penv.parse_keyblock vbytes).keyblock_size)
    ).body_signature.data_size > fwArea.len) := by omega
  simp [vblock_checks, h1, h2, h3, h4x, h5, hdsx, hz]

theorem vblock_checks_of_valid_toolarge (penv : PrepEnv) (vbytes : List Nat)
    (vlen : Nat) (fwArea : BiosArea) (vblock_c : BiosComponent)
    (H : ∃ dk, chain_valid penv vbytes vlen dk)
    (hz : fwArea.fw_size = 0)
    (hds : fwArea.len < (penv.parse_fw_preamble
        (vbytes.drop (penv.parse_keyblock vbytes).keyblock_size)
      ).body_signature.data_size) :
    vblock_checks penv vbytes vlen fwArea vblock_c
      = (none, fwArea, [.errFwLarger vblock_c]) := by
  obtain ⟨dk, h1, h2, h3, h4, h5⟩ := H
  have h4x : ¬ ((penv.parse_keyblock vbytes).keyblock_size +
      penv.sizeof_fw_preamble > vlen) := by omega
  simp [vblock_checks, h1, h2, h3, h4x, h5, hz, hds]

theorem vblock_checks_no_cbfs_warning (penv : PrepEnv) (vbytes : List Nat)
    (vlen : Nat) (fwArea : BiosArea) (vblock_c c : BiosComponent) :
    LogItem.warnNoCbfs c ∉ (vblock_checks penv vbytes vlen fwArea vblock_c).2.2 := by
  simp only [vblock_checks]
  repeat' split
  all_goals simp

/-- C2 (amended): body-length resolution of prepare_slot. With both slot
areas found and fw_size within the area: (1) a non-zero fw_size is used as
the signed length; (2) otherwise, when the existing chain verifies and its
preamble's declared body size fits, that size is used; (3) otherwise the
full FMAP area size is used — both when the chain fails validation and
when the chain verifies but its preamble's declared body size exceeds the
area (the errFwLarger path). The no-internal-structure warning is emitted
exactly when fw_size is zero and the payload carries no metadata hash —
it is driven by the metadata hash, not by which of cases (2)/(3) applies. -/
theorem prepare_slot_body_length_policy (penv : PrepEnv) (so : SignOption)
    (img : Image) (fw_c vblock_c : BiosComponent) (state : BiosState)
    (ah0 bh0 : FmapAreaHeader)
    (hne : fw_c ≠ vblock_c)
    (hfw : fmap_find_by_name img (fmap_name fw_c) = some ah0)
    (hvb : fmap_find_by_name img (fmap_name vblock_c) = some bh0)
    (hfs : (state.get fw_c).fw_size ≤ (fmap_limit_area ah0 img.len).area_size) :
    ((state.get fw_c).fw_size ≠ 0 →
      ((prepare_slot penv so img fw_c vblock_c state).2.1.get fw_c).len
        = (state.get fw_c).fw_size) ∧
    (∀ dk, (state.get fw_c).fw_size = 0 →
      chain_valid penv
        (img.buf.drop (fmap_limit_area bh0 img.len).area_offset)
        (fmap_limit_area bh0 img.len).area_size dk →
      (penv.parse_fw_preamble
        ((img.buf.drop (fmap_limit_area bh0 img.len).area_offset).drop
          (penv.parse_keyblock
            (img.buf.drop (fmap_limit_area bh0 img.len).area_offset)
          ).keyblock_size)).body_signature.data_size
        ≤ (fmap_limit_area ah0 img.len).area_size →
      ((prepare_slot penv so img fw_c vblock_c state).2.1.get fw_c).len
        = (penv.parse_fw_preamble
            ((img.buf.drop (fmap_limit_area bh0 img.len).area_offset).drop
              (penv.parse_keyblock
                (img.buf.drop (fmap_limit_area bh0 img.len).area_offset)
              ).keyblock_size)).body_signature.data_size) ∧
    ((state.get fw_c).fw_size = 0 →
      chain_invalid penv
        (img.buf.drop (fmap_limit_area bh0 img.len).area_offset)
        (fmap_limit_area bh0 img.len).area_size →
      ((prepare_slot penv so img fw_c vblock_c state).2.1.get fw_c).len
        = (fmap_limit_area ah0 img.len).area_size) ∧
    (∀ dk, (state.get fw_c).fw_size = 0 →
      chain_valid penv
        (img.buf.drop (fmap_limit_area bh0 img.len).area_offset)
        (fmap_limit_area bh0 img.len).area_size dk →
      (fmap_limit_area ah0 img.len).area_size <
        (penv.parse_fw_preamble
          ((img.buf.drop (fmap_limit_area bh0 img.len).area_offset).drop
            (penv.parse_keyblock
              (img.buf.drop (fmap_limit_area bh0 img.len).area_offset)
            ).keyblock_size)).body_signature.data_size →
      ((prepare_slot penv so img fw_c vblock_c state).2.1.get fw_c).len
        = (fmap_limit_area ah0 img.len).area_size) ∧
    (LogItem.warnNoCbfs fw_c ∈ (prepare_slot penv so img fw_c vblock_c state).2.2
      ↔ ((state.get fw_c).fw_size = 0 ∧
         (state.get fw_c).metadata_hash.algo = VB2_HASH_INVALID)) := by
  have hnot : ¬ ({ state.get fw_c with
      buf := img.buf.drop (fmap_limit_area ah0 img.len).area_offset,
      is_valid := true } : BiosArea).fw_size
      > (fmap_limit_area ah0 img.len).area_size := by
    show ¬ (state.get fw_c).fw_size > (fmap_limit_area ah0 img.len).area_size
    omega
  refine ⟨?_, ?_, ?_, ?_, ?_⟩
  · intro hnz
    simp [prepare_slot, hfw, hvb, hnot, hnz, vblock_checks_keeps_fw_nonzero,
      BiosState.get_set_same, BiosState.get_set_ne _ _ _ _ hne]
  · intro dk hz hcv hds
    have hval : ∀ fwArea, fwArea.fw_size = 0 →
        (penv.parse_fw_preamble
          ((img.buf.drop (fmap_limit_area bh0 img.len).area_offset).drop
            (penv.parse_keyblock
              (img.buf.drop (fmap_limit_area bh0 img.len).area_offset)
            ).keyblock_size)).body_signature.data_size ≤ fwArea.len →
        vblock_checks penv
          (img.buf.drop (fmap_limit_area bh0 img.len).area_offset)
          (fmap_limit_area bh0 img.len).area_size fwArea vblock_c =
        (some (penv.parse_fw_preamble
            ((img.buf.drop (fmap_limit_area bh0 img.len).area_offset).drop
              (penv.parse_keyblock
                (img.buf.drop (fmap_limit_area bh0 img.len).area_offset)
              ).keyblock_size)),
         { fwArea with len := (penv.parse_fw_preamble
            ((img.buf.drop (fmap_limit_area bh0 img.len).area_offset).drop
              (penv.parse_keyblock
                (img.buf.drop (fmap_limit_area bh0 img.len).area_offset)
              ).keyblock_size)).body_signature.data_size },
         []) :=
      fun fwArea hz0 hds0 =>
        vblock_checks_of_valid penv _ _ fwArea vblock_c ⟨dk, hcv⟩ hz0 hds0
    simp [prepare_slot, hfw, hvb, hnot, hz, hds,
      BiosState.get_set_same, BiosState.get_set_ne _ _ _ _ hne]
    rw [hval _ rfl (by exact hds)]
    simp
  · intro hz hci
    have h21 : ∀ fwArea vc,
        (vblock_checks penv
          (img.buf.drop (fmap_limit_area bh0 img.len).area_offset)
          (fmap_limit_area bh0 img.len).area_size fwArea vc).2.1 = fwArea :=
      fun fwArea vc => (vblock_checks_of_invalid penv _ _ fwArea vc hci).2
    simp [prepare_slot, hfw, hvb, hnot, hz, h21,
      BiosState.get_set_same, BiosState.get_set_ne _ _ _ _ hne]
  · intro dk hz hcv hds
    have hval2 : ∀ fwArea, fwArea.fw_size = 0 →
        fwArea.len < (penv.parse_fw_preamble
          ((img.buf.drop (fmap_limit_area bh0 img.len).area_offset).drop
            (penv.parse_keyblock
              (img.buf.drop (fmap_limit_area bh0 img.len).area_offset)
            ).keyblock_size)).body_signature.data_size →
        vblock_checks penv
          (img.buf.drop (fmap_limit_area bh0 img.len).area_offset)
          (fmap_limit_area bh0 img.len).area_size fwArea vblock_c
          = (none, fwArea, [.errFwLarger vblock_c]) :=
      fun fwArea hz0 hds0 =>
        vblock_checks_of_valid_toolarge penv _ _ fwArea vblock_c
          ⟨dk, hcv⟩ hz0 hds0
    simp [prepare_slot, hfw, hvb, hnot, hz, hds,
      BiosState.get_set_same, BiosState.get_set_ne _ _ _ _ hne]
    rw [hval2 _ rfl (by exact hds)]
  · by_cases hc : (state.get fw_c).fw_size = 0 ∧
        (state.get fw_c).metadata_hash.algo = VB2_HASH_INVALID
    · simp [prepare_slot, hfw, hvb, hnot, hc, vblock_checks_no_cbfs_warning]
    · simp [prepare_slot, hfw, hvb, hnot, hc, vblock_checks_no_cbfs_warning]

/-- Witness for C2 (amended): with the concrete slot-A image and a failing
keyblock hash, case (3) resolves the length to the full 4-byte area. -/
theorem prepare_slot_body_length_policy_witness :
    ((prepare_slot failhash_penv {} slotA_img .FW_MAIN_A .VBLOCK_A
      {}).2.1.get .FW_MAIN_A).len = 4 := by
  have h := prepare_slot_body_length_policy failhash_penv {} slotA_img
    .FW_MAIN_A .VBLOCK_A {} ⟨0, 4, "FW_MAIN_A"⟩ ⟨4, 4, "VBLOCK_A"⟩
    (by decide) (by decide) (by decide) (by decide)
  exact h.2.2.1 rfl (by unfold chain_invalid; left; rfl)

/-- Concrete state for the C2 counterexample: slot A's firmware area carries
a metadata hash (CBFS-integration mode) and no explicit fw_size. -/
def c2cx_state : BiosState := { aFW_MAIN_A := { metadata_hash := ⟨1⟩ } }

/-- Counterexample to C2 as stated: a slot with no explicit length whose
existing chain is invalid (the claim's case (3)) but whose payload carries a
metadata hash. The length is resolved to the full area, yet no
no-internal-structure warning is emitted, contradicting the claim that
case (3) is always accompanied by that warning. -/
theorem prepare_slot_case3_warning_missing :
    (c2cx_state.get .FW_MAIN_A).fw_size = 0 ∧
    (c2cx_state.get .FW_MAIN_A).metadata_hash.algo ≠ VB2_HASH_INVALID ∧
    chain_invalid failhash_penv (slotA_img.buf.drop 4) 4 ∧
    ((prepare_slot failhash_penv {} slotA_img .FW_MAIN_A .VBLOCK_A
      c2cx_state).2.1.get .FW_MAIN_A).len = 4 ∧
    LogItem.warnNoCbfs .FW_MAIN_A ∉
      (prepare_slot failhash_penv {} slotA_img .FW_MAIN_A .VBLOCK_A
        c2cx_state).2.2 :=
  ⟨rfl, by decide, by unfold chain_invalid; left; rfl, by decide, by decide⟩

/-- Outcome of an operation that can abort the whole process via FATAL. -/
inductive Outcome (α : Type) where
  | ok (a : α)
  | fatal (m : LogItem)
deriving DecidableEq

/-- Oracle environment for the cbfstool collaborator: the image config
value CONFIG_VBOOT_CBFS_INTEGRATION (outer none = query failed, inner
none = NULL value), CBFS truncation (returning the truncated CBFS size of
an area), and metadata-hash retrieval. -/
structure CbfsEnv where
  get_config_value : Option (Option String)
  cbfstool_truncate : BiosComponent → Option Nat
  get_metadata_hash : BiosComponent → Option Vb2Hash

/-- Embedding of image_uses_cbfs_integration (file_type_bios.c). -/
def image_uses_cbfs_integration (cenv : CbfsEnv) : Bool :=
  match cenv.get_config_value with
  | none => false
  | some none => false
  | some (some s) => s == "y"

/-- Embedding of image_check_and_prepare_cbfs (file_type_bios.c): without
CBFS integration, a successful CBFS truncation stores the CBFS size as the
area's fw_size (failure is only a debug message); with integration, a
missing metadata hash is FATAL, otherwise the hash is stored. -/
def image_check_and_prepare_cbfs (cenv : CbfsEnv) (fw_c : BiosComponent)
    (uses_cbfs_integration : Bool) (state : BiosState) : Outcome BiosState :=
  if ¬ uses_cbfs_integration then
    match cenv.cbfstool_truncate fw_c with
    | none => .ok state
    | some sz => .ok (state.set fw_c { state.get fw_c with fw_size := sz })
  else
    match cenv.get_metadata_hash fw_c with
    | none => .fatal (.fatalNoMetadataHash fw_c)
    | some h =>
      .ok (state.set fw_c { state.get fw_c with metadata_hash := h })

/-- Embedding of check_slot_after_prepare (file_type_bios.c): FATAL when a
valid slot uses CBFS integration but ended up without a metadata hash. -/
def check_slot_after_prepare (fw_c : BiosComponent)
    (uses_cbfs_integration : Bool) (state : BiosState) : Outcome Unit :=
  if (state.get fw_c).is_valid = true ∧ uses_cbfs_integration = true ∧
      (state.get fw_c).metadata_hash.algo = VB2_HASH_INVALID then
    .fatal (.fatalNoMetadataHash fw_c)
  else
    .ok ()

/-- Embedding of sign_bios_at_end (file_type_bios.c): slot A must have both
areas valid and is always signed; slot B is signed only when both its areas
are valid, otherwise only an informational message is printed; LOEM output
files are then written when requested. Returns (retval, state, log). -/
def sign_bios_at_end (senv : SignEnv) (so : SignOption) (state : BiosState) :
    Nat × BiosState × List LogItem :=
  let vblock_a := state.get .VBLOCK_A
  let vblock_b := state.get .VBLOCK_B
  let fw_a := state.get .FW_MAIN_A
  let fw_b := state.get .FW_MAIN_B
  if ¬ (vblock_a.is_valid = true ∧ fw_a.is_valid = true) then
    (1, state, [.errSomethingWrong])
  else
    let ra := write_new_preamble senv so.kernel_subkey vblock_a fw_a
      so.signprivate so.keyblock
    let st1 := state.set .VBLOCK_A { vblock_a with buf := ra.2 }
    let step2 : Nat × BiosState × List LogItem :=
      if vblock_b.is_valid = true ∧ fw_b.is_valid = true then
        let rb := write_new_preamble senv so.kernel_subkey vblock_b fw_b
          so.signprivate so.keyblock
        (ra.1 ||| rb.1, st1.set .VBLOCK_B { vblock_b with buf := rb.2 }, [])
      else
        (ra.1, st1, [.infoNoSlotB])
    match so.loemid with
    | none => step2
    | some _ =>
      let la := senv.write_loem "A" (step2.2.1.get .VBLOCK_A)
      if (step2.2.1.get .VBLOCK_B).is_valid = true then
        (step2.1 ||| la ||| senv.write_loem "B" (step2.2.1.get .VBLOCK_B),
         step2.2.1, step2.2.2)
      else
        (step2.1 ||| la, step2.2.1, step2.2.2)

/-- Embedding of ft_sign_bios (file_type_bios.c): CBFS preparation of both
slots (possibly FATAL), mandatory slot-A preparation, opportunistic slot-B
preparation (failure fatal only when FW_MAIN_B was found), post-prepare
CBFS checks (possibly FATAL), then the final dual-slot signing write. -/
def ft_sign_bios (cenv : CbfsEnv) (penv : PrepEnv) (senv : SignEnv)
    (so : SignOption) (img : Image) :
    Outcome (Nat × BiosState × List LogItem) :=
  let uses := image_uses_cbfs_integration cenv
  match image_check_and_prepare_cbfs cenv .FW_MAIN_A uses {} with
  | .fatal m => .fatal m
  | .ok st1 =>
    match image_check_and_prepare_cbfs cenv .FW_MAIN_B uses st1 with
    | .fatal m => .fatal m
    | .ok st2 =>
      let rA := prepare_slot penv so img .FW_MAIN_A .VBLOCK_A st2
      if rA.1 ≠ 0 then .ok (rA.1, rA.2.1, rA.2.2)
      else
        let rB := prepare_slot penv so img .FW_MAIN_B .VBLOCK_B rA.2.1
        if rB.1 ≠ 0 ∧ (rB.2.1.get .FW_MAIN_B).is_valid = true then
          .ok (rB.1, rB.2.1, rA.2.2 ++ rB.2.2)
        else
          match check_slot_after_prepare .FW_MAIN_A uses rB.2.1 with
          | .fatal m => .fatal m
          | .ok _ =>
            match check_slot_after_prepare .FW_MAIN_B uses rB.2.1 with
            | .fatal m => .fatal m
            | .ok _ =>
              let rE := sign_bios_at_end senv so rB.2.1
              .ok (rE.1, rE.2.1, rA.2.2 ++ rB.2.2 ++ rE.2.2)

/-- C7: in CBFS-integration mode the absence of the metadata hash is fatal
for the whole signing operation, never a warning: ft_sign_bios aborts with
the FATAL outcome as soon as the hash of either slot cannot be retrieved,
and a slot that reached the post-prepare check valid but hashless is
likewise fatal. -/
theorem ft_sign_bios_missing_metadata_fatal :
    (∀ (cenv : CbfsEnv) (penv : PrepEnv) (senv : SignEnv) (so : SignOption)
      (img : Image),
      image_uses_cbfs_integration cenv = true →
      (cenv.get_metadata_hash .FW_MAIN_A = none ∨
       cenv.get_metadata_hash .FW_MAIN_B = none) →
      ∃ c, ft_sign_bios cenv penv senv so img
        = .fatal (.fatalNoMetadataHash c)) ∧
    (∀ (fw_c : BiosComponent) (state : BiosState),
      (state.get fw_c).is_valid = true →
      (state.get fw_c).metadata_hash.algo = VB2_HASH_INVALID →
      check_slot_after_prepare fw_c true state
        = .fatal (.fatalNoMetadataHash fw_c)) := by
  constructor
  · intro cenv penv senv so img huses hmiss
    cases hA : cenv.get_metadata_hash .FW_MAIN_A with
    | none =>
      refine ⟨.FW_MAIN_A, ?_⟩
      simp [ft_sign_bios, image_check_and_prepare_cbfs, huses, hA]
    | some h =>
      rcases hmiss with hm | hm
      · rw [hA] at hm
        exact absurd hm (Option.some_ne_none h)
      · refine ⟨.FW_MAIN_B, ?_⟩
        simp [ft_sign_bios, image_check_and_prepare_cbfs, huses, hA, hm]
  · intro fw_c state h1 h2
    unfold check_slot_after_prepare
    rw [if_pos ⟨h1, rfl, h2⟩]

/-- Witness for C7 at a concrete integration-mode environment missing the
slot-A metadata hash (first part) and a concrete valid hashless slot state
(second part). -/
theorem ft_sign_bios_missing_metadata_fatal_witness :
    (∃ c, ft_sign_bios ⟨some (some "y"), fun _ => none, fun _ => none⟩
      failhash_penv
      ⟨fun _ => none, fun _ _ => none, fun _ _ _ _ _ => none, fun _ _ => 0⟩
      {} slotA_img = .fatal (.fatalNoMetadataHash c)) ∧
    check_slot_after_prepare .FW_MAIN_A true
      { aFW_MAIN_A := { is_valid := true } }
      = .fatal (.fatalNoMetadataHash .FW_MAIN_A) :=
  ⟨ft_sign_bios_missing_metadata_fatal.1
      ⟨some (some "y"), fun _ => none, fun _ => none⟩ failhash_penv
      ⟨fun _ => none, fun _ _ => none, fun _ _ _ _ _ => none, fun _ _ => 0⟩
      {} slotA_img rfl (Or.inl rfl),
   ft_sign_bios_missing_metadata_fatal.2 .FW_MAIN_A
      { aFW_MAIN_A := { is_valid := true } } rfl rfl⟩

theorem vblock_checks_keeps_is_valid (penv : PrepEnv) (vbytes : List Nat)
    (vlen : Nat) (fwArea : BiosArea) (vblock_c : BiosComponent) :
    (vblock_checks penv vbytes vlen fwArea vblock_c).2.1.is_valid
      = fwArea.is_valid := by
  simp only [vblock_checks]
  repeat' split
  all_goals rfl

theorem prepare_slot_frame (penv : PrepEnv) (so : SignOption) (img : Image)
    (fw_c vblock_c c2 : BiosComponent) (state : BiosState)
    (h1 : c2 ≠ fw_c) (h2 : c2 ≠ vblock_c) :
    ((prepare_slot penv so img fw_c vblock_c state).2.1).get c2
      = state.get c2 := by
  simp only [prepare_slot]
  repeat' split
  all_goals simp [BiosState.get_set_ne _ _ _ _ h1,
    BiosState.get_set_ne _ _ _ _ h2]

theorem prepare_slot_zero_valid (penv : PrepEnv) (so : SignOption)
    (img : Image) (fw_c vblock_c : BiosComponent) (state st2 : BiosState)
    (lg : List LogItem) (hne : fw_c ≠ vblock_c)
    (h : prepare_slot penv so img fw_c vblock_c state = (0, st2, lg)) :
    (st2.get fw_c).is_valid = true ∧ (st2.get vblock_c).is_valid = true := by
  simp only [prepare_slot] at h
  repeat' split at h
  all_goals simp only [Prod.mk.injEq] at h
  all_goals obtain ⟨h0, hS, hL⟩ := h
  all_goals first
    | exact absurd h0 one_ne_zero
    | (subst hS
       constructor
       · rw [BiosState.get_set_ne _ _ _ _ hne, BiosState.get_set_same,
           vblock_checks_keeps_is_valid]
       · rw [BiosState.get_set_same])

theorem prepare_slot_fw_found_valid (penv : PrepEnv) (so : SignOption)
    (img : Image) (fw_c vblock_c : BiosComponent) (state : BiosState)
    (ah0 : FmapAreaHeader) (hne : fw_c ≠ vblock_c)
    (hfw : fmap_find_by_name img (fmap_name fw_c) = some ah0) :
    (((prepare_slot penv so img fw_c vblock_c state).2.1).get fw_c).is_valid
      = true := by
  simp only [prepare_slot, hfw]
  repeat' split
  all_goals simp [BiosState.get_set_same, BiosState.get_set_ne _ _ _ _ hne,
    vblock_checks_keeps_is_valid]

theorem image_check_cbfs_keeps_is_valid (cenv : CbfsEnv)
    (fw_c c2 : BiosComponent) (u : Bool) (st st2 : BiosState)
    (h : image_check_and_prepare_cbfs cenv fw_c u st = .ok st2) :
    (st2.get c2).is_valid = (st.get c2).is_valid := by
  unfold image_check_and_prepare_cbfs at h
  repeat' split at h
  all_goals try simp only [Outcome.ok.injEq] at h
  all_goals first
    | exact absurd h (by simp)
    | (subst h
       first
        | rfl
        | (by_cases hc : c2 = fw_c
           · subst hc
             simp [BiosState.get_set_same]
           · simp [BiosState.get_set_ne _ _ _ _ hc]))

theorem lor_ne_zero_left (x y : Nat) (h : x ≠ 0) : x ||| y ≠ 0 := by
  intro hxy
  rcases Nat.exists_most_significant_bit h with ⟨i, hi, _⟩
  have hbit : (x ||| y).testBit i = true := by
    rw [Nat.testBit_lor, hi]
    rfl
  rw [hxy] at hbit
  simp [Nat.zero_testBit] at hbit

theorem check_slot_after_prepare_of_invalid (fw_c : BiosComponent) (u : Bool)
    (state : BiosState) (h : (state.get fw_c).is_valid = false) :
    check_slot_after_prepare fw_c u state = .ok () := by
  simp [check_slot_after_prepare, h]

/-- The retval |= of sign_bios_at_end propagates a failing slot-A
write_new_preamble into a non-zero overall return value on every path. -/
theorem sign_bios_at_end_fails_of_slot_a_write (senv : SignEnv)
    (so : SignOption) (state : BiosState)
    (hw : (write_new_preamble senv so.kernel_subkey (state.get .VBLOCK_A)
      (state.get .FW_MAIN_A) so.signprivate so.keyblock).1 ≠ 0) :
    (sign_bios_at_end senv so state).1 ≠ 0 := by
  simp only [sign_bios_at_end]
  repeat' split
  all_goals first
    | (repeat' apply lor_ne_zero_left
       exact hw)
    | simp_all

/-- C5: dual-slot policy of ft_sign_bios. (a) If slot A cannot be prepared,
the whole operation fails with that error. (b) If slot A is prepared but
its signing write fails, the whole operation fails: sign_bios_at_end
propagates the slot-A write_new_preamble failure through retval. (c) If
slot B's FW_MAIN_B area is absent from the FMAP while slot A prepares and
signs fine (and slot A's post-prepare CBFS check passes), the operation
succeeds and only the informational slot-B message is recorded. (d) If
FW_MAIN_B is present but slot-B preparation fails, the whole operation
fails. -/
theorem ft_sign_bios_dual_slot_policy :
    (∀ (cenv : CbfsEnv) (penv : PrepEnv) (senv : SignEnv) (so : SignOption)
       (img : Image) (st1 st2 stA : BiosState) (lgA : List LogItem) (r : Nat),
      image_check_and_prepare_cbfs cenv .FW_MAIN_A
        (image_uses_cbfs_integration cenv) {} = .ok st1 →
      image_check_and_prepare_cbfs cenv .FW_MAIN_B
        (image_uses_cbfs_integration cenv) st1 = .ok st2 →
      prepare_slot penv so img .FW_MAIN_A .VBLOCK_A st2 = (r, stA, lgA) →
      r ≠ 0 →
      ft_sign_bios cenv penv senv so img = .ok (r, stA, lgA)) ∧
    (∀ (cenv : CbfsEnv) (penv : PrepEnv) (senv : SignEnv) (so : SignOption)
       (img : Image) (st1 st2 stA stB : BiosState)
       (lgA lgB : List LogItem) (rB : Nat),
      image_check_and_prepare_cbfs cenv .FW_MAIN_A
        (image_uses_cbfs_integration cenv) {} = .ok st1 →
      image_check_and_prepare_cbfs cenv .FW_MAIN_B
        (image_uses_cbfs_integration cenv) st1 = .ok st2 →
      prepare_slot penv so img .FW_MAIN_A .VBLOCK_A st2 = (0, stA, lgA) →
      prepare_slot penv so img .FW_MAIN_B .VBLOCK_B stA = (rB, stB, lgB) →
      (rB = 0 ∨ (stB.get .FW_MAIN_B).is_valid = false) →
      check_slot_after_prepare .FW_MAIN_A
        (image_uses_cbfs_integration cenv) stB = .ok () →
      check_slot_after_prepare .FW_MAIN_B
        (image_uses_cbfs_integration cenv) stB = .ok () →
      (write_new_preamble senv so.kernel_subkey (stB.get .VBLOCK_A)
        (stB.get .FW_MAIN_A) so.signprivate so.keyblock).1 ≠ 0 →
      ∃ r st lg, ft_sign_bios cenv penv senv so img = .ok (r, st, lg) ∧
        r ≠ 0) ∧
    (∀ (cenv : CbfsEnv) (penv : PrepEnv) (senv : SignEnv) (so : SignOption)
       (img : Image) (st1 st2 stA : BiosState) (lgA : List LogItem),
      image_check_and_prepare_cbfs cenv .FW_MAIN_A
        (image_uses_cbfs_integration cenv) {} = .ok st1 →
      image_check_and_prepare_cbfs cenv .FW_MAIN_B
        (image_uses_cbfs_integration cenv) st1 = .ok st2 →
      fmap_find_by_name img (fmap_name .FW_MAIN_B) = none →
      prepare_slot penv so img .FW_MAIN_A .VBLOCK_A st2 = (0, stA, lgA) →
      (write_new_preamble senv so.kernel_subkey (stA.get .VBLOCK_A)
        (stA.get .FW_MAIN_A) so.signprivate so.keyblock).1 = 0 →
      so.loemid = none →
      check_slot_after_prepare .FW_MAIN_A
        (image_uses_cbfs_integration cenv) stA = .ok () →
      ∃ st lg, ft_sign_bios cenv penv senv so img = .ok (0, st, lg) ∧
        LogItem.infoNoSlotB ∈ lg) ∧
    (∀ (cenv : CbfsEnv) (penv : PrepEnv) (senv : SignEnv) (so : SignOption)
       (img : Image) (st1 st2 stA stB : BiosState) (lgA lgB : List LogItem)
       (rB : Nat) (ahB : FmapAreaHeader),
      image_check_and_prepare_cbfs cenv .FW_MAIN_A
        (image_uses_cbfs_integration cenv) {} = .ok st1 →
      image_check_and_prepare_cbfs cenv .FW_MAIN_B
        (image_uses_cbfs_integration cenv) st1 = .ok st2 →
      prepare_slot penv so img .FW_MAIN_A .VBLOCK_A st2 = (0, stA, lgA) →
      fmap_find_by_name img (fmap_name .FW_MAIN_B) = some ahB →
      prepare_slot penv so img .FW_MAIN_B .VBLOCK_B stA = (rB, stB, lgB) →
      rB ≠ 0 →
      ft_sign_bios cenv penv senv so img = .ok (rB, stB, lgA ++ lgB)
        ∧ rB ≠ 0) := by
  refine ⟨?_, ?_, ?_, ?_⟩
  · intro cenv penv senv so img st1 st2 stA lgA r himgA himgB hA hr
    simp [ft_sign_bios, himgA, himgB, hA, hr]
  · intro cenv penv senv so img st1 st2 stA stB lgA lgB rB himgA himgB hA
      hB hcont hchkA hchkB hw
    have hfail := sign_bios_at_end_fails_of_slot_a_write senv so stB hw
    refine ⟨(sign_bios_at_end senv so stB).1,
      (sign_bios_at_end senv so stB).2.1,
      lgA ++ lgB ++ (sign_bios_at_end senv so stB).2.2, ?_, hfail⟩
    rcases hcont with h0 | hinv
    · subst h0
      simp [ft_sign_bios, himgA, himgB, hA, hB, hchkA, hchkB]
    · simp [ft_sign_bios, himgA, himgB, hA, hB, hinv, hchkA, hchkB]
  · intro cenv penv senv so img st1 st2 stA lgA himgA himgB hBnone hA
      hw hloem hchkA
    have hvalid := prepare_slot_zero_valid penv so img .FW_MAIN_A .VBLOCK_A
      st2 stA lgA (by decide) hA
    have hframe : (stA.get .FW_MAIN_B) = st2.get .FW_MAIN_B := by
      have hfr := prepare_slot_frame penv so img .FW_MAIN_A .VBLOCK_A
        .FW_MAIN_B st2 (by decide) (by decide)
      rw [hA] at hfr
      exact hfr
    have hBfw : (stA.get .FW_MAIN_B).is_valid = false := by
      rw [hframe,
        image_check_cbfs_keeps_is_valid cenv .FW_MAIN_B .FW_MAIN_B _
          st1 st2 himgB,
        image_check_cbfs_keeps_is_valid cenv .FW_MAIN_A .FW_MAIN_B _
          {} st1 himgA]
      rfl
    have hB : prepare_slot penv so img .FW_MAIN_B .VBLOCK_B stA
        = (1, stA, [.errAreaNotFound .FW_MAIN_B]) := by
      simp only [prepare_slot, hBnone]
    have hchkB := check_slot_after_prepare_of_invalid .FW_MAIN_B
      (image_uses_cbfs_integration cenv) stA hBfw
    refine ⟨stA.set .VBLOCK_A { stA.get .VBLOCK_A with
        buf := (write_new_preamble senv so.kernel_subkey (stA.get .VBLOCK_A)
          (stA.get .FW_MAIN_A) so.signprivate so.keyblock).2 },
      lgA ++ [.errAreaNotFound .FW_MAIN_B] ++ [.infoNoSlotB], ?_, by simp⟩
    simp [ft_sign_bios, himgA, himgB, hA, hB, hBfw, hloem, hw,
      hchkA, hchkB, sign_bios_at_end, hvalid.1, hvalid.2]
  · intro cenv penv senv so img st1 st2 stA stB lgA lgB rB ahB himgA
      himgB hA hBfound hB hrB
    have hBfw : (stB.get .FW_MAIN_B).is_valid = true := by
      have hfv := prepare_slot_fw_found_valid penv so img .FW_MAIN_B
        .VBLOCK_B stA ahB (by decide) hBfound
      rw [hB] at hfv
      exact hfv
    refine ⟨?_, hrB⟩
    simp [ft_sign_bios, himgA, himgB, hA, hB, hBfw, hrB]

/-- Concrete signing environment whose primitives all succeed with a small
preamble, so a 4-byte VBLOCK suffices. -/
def small_senv : SignEnv :=
  ⟨fun _ => some ⟨1, 4⟩, fun _ _ => some ⟨1, 4⟩,
   fun _ _ _ _ _ => some ⟨2, 0, 1, ⟨1, 4⟩, [7, 7]⟩, fun _ _ => 0⟩

/-- Witness for C5, part (b): a no-CBFS image with only slot A present is
signed successfully, with the informational slot-B message recorded. -/
theorem ft_sign_bios_dual_slot_policy_witness :
    ∃ st lg, ft_sign_bios ⟨none, fun _ => none, fun _ => none⟩ failhash_penv
      small_senv {} slotA_img = .ok (0, st, lg) ∧
      LogItem.infoNoSlotB ∈ lg :=
  ft_sign_bios_dual_slot_policy.2.2.1
    ⟨none, fun _ => none, fun _ => none⟩ failhash_penv small_senv {} slotA_img
    {} {}
    ((prepare_slot failhash_penv {} slotA_img .FW_MAIN_A .VBLOCK_A {}).2.1)
    ((prepare_slot failhash_penv {} slotA_img .FW_MAIN_A .VBLOCK_A {}).2.2)
    (by decide) (by decide) (by decide) (by decide) (by decide) rfl
    (by decide)

/-- Signing primitives that KernelUtility::GenerateSignedImage can invoke;
the trace of invocations is the observable behaviour the claims are about. -/
inductive KAction where
  | addKernelKeySignature
  | generateKernelBlob
  | addKernelSignature
deriving DecidableEq

/-- Embedding of MemcpyState (stateful_util): the remaining field stream of
the subkey file and the sticky overrun flag. stateful_util.c is not part of
the sources under src/; modelled from its standard contract: a read past
the end sets overrun and leaves the destination unchanged (here 0, the
value of a freshly zero-allocated image field), and later reads are
no-ops once overrun is set. -/
structure MSt where
  buf : List Nat
  overrun : Bool
deriving DecidableEq

/-- One StatefulMemcpy of one header field from the subkey buffer. -/
def sread (st : MSt) : Nat × MSt :=
  if st.overrun then (0, st)
  else
    match st.buf with
    | [] => (0, { st with overrun := true })
    | x :: xs => (x, { buf := xs, overrun := st.overrun })

/-- Oracle environment for the kernel utility: algorithm count, header
length computation, header checksum (a function of the parsed header
fields), and the outcomes of the external file/crypto calls. The subkey
file is modelled field-granularly: each StatefulMemcpy of one header field
consumes one element of the stream. -/
structure KUEnv where
  kNumAlgorithms : Nat
  getKernelHeaderLen : Nat → Nat
  calcHeaderChecksum : Nat → Nat → Nat → Nat → Nat → Nat → Nat
  kernel_key_pub : Option Nat
  addKernelKeySignature_ok : Bool
  generateKernelBlob : Option Nat
  addKernelSignature_ok : Bool

/-- The relevant --generate options of KernelUtility (CheckOptions already
passed): subkey_in as the parsed field stream when --subkey_in was given. -/
structure KUOpts where
  subkey_in : Option (List Nat)
  firmware_sign_algorithm : Nat
  kernel_sign_algorithm : Nat
  kernel_key_version : Nat
  kernel_version : Nat
  padding : Nat

/-- Embedding of the tail of KernelUtility::GenerateSignedImage
(kernel_utility.cc): fill in the kernel preamble and data, then add the
preamble and data signatures. -/
def finish_generate (env : KUEnv) (acc : List KAction) : Bool × List KAction :=
  match env.generateKernelBlob with
  | none => (false, acc ++ [KAction.generateKernelBlob])
  | some _ =>
    if env.addKernelSignature_ok then
      (true, acc ++ [KAction.generateKernelBlob, KAction.addKernelSignature])
    else
      (false, acc ++ [KAction.generateKernelBlob, KAction.addKernelSignature])

/-- Embedding of KernelUtility::GenerateSignedImage (kernel_utility.cc).
Fresh-chain mode (no subkey_in) builds the subkey header and signs it, then
proceeds to the kernel blob and kernel signature. Reused-chain mode parses
the supplied subkey header (header fields, algorithm checks, header-length
check, checksum check, key signature, overrun/underrun check) and — as the
source is written — returns success immediately after the parse, without
ever reaching the kernel blob / kernel signature code. Returns the success
flag and the trace of signing primitives invoked. -/
def generate_signed_image (env : KUEnv) (opts : KUOpts) :
    Bool × List KAction :=
  match opts.subkey_in with
  | none =>
    match env.kernel_key_pub with
    | none => (false, [])
    | some _ =>
      if env.addKernelKeySignature_ok then
        finish_generate env [KAction.addKernelKeySignature]
      else
        (false, [KAction.addKernelKeySignature])
  | some fields =>
    let s0 : MSt := ⟨fields, false⟩
    let r1 := sread s0
    let r2 := sread r1.2
    let r3 := sread r2.2
    let r4 := sread r3.2
    if env.kNumAlgorithms ≤ r3.1 then (false, [])
    else if env.kNumAlgorithms ≤ r4.1 then (false, [])
    else if env.getKernelHeaderLen r4.1 ≠ r2.1 then (false, [])
    else
      let r5 := sread r4.2
      let r6 := sread r5.2
      let r7 := sread r6.2
      if env.calcHeaderChecksum r1.1 r2.1 r3.1 r4.1 r5.1 r6.1 ≠ r7.1 then
        (false, [])
      else
        let r8 := sread r7.2
        if r8.2.overrun = true ∨ r8.2.buf ≠ [] then (false, [])
        else (true, [])

/-- C8: in reused-chain mode, when the recomputed header checksum disagrees
with the checksum stored in the subkey header, GenerateSignedImage rejects
the operation (returns false) before any signature is computed or added:
the trace of signing primitives is empty. -/
theorem generate_signed_image_checksum_reject (env : KUEnv) (opts : KUOpts)
    (f1 f2 f3 f4 f5 f6 f7 : Nat) (rest : List Nat)
    (hsub : opts.subkey_in = some (f1 :: f2 :: f3 :: f4 :: f5 :: f6 :: f7 :: rest))
    (ha1 : f3 < env.kNumAlgorithms) (ha2 : f4 < env.kNumAlgorithms)
    (hhl : env.getKernelHeaderLen f4 = f2)
    (hchk : env.calcHeaderChecksum f1 f2 f3 f4 f5 f6 ≠ f7) :
    generate_signed_image env opts = (false, []) := by
  unfold generate_signed_image
  rw [hsub]
  simp only [sread]
  simp [hchk, hhl, Nat.not_le.mpr ha1, Nat.not_le.mpr ha2]

/-- Witness for C8 at a concrete subkey stream whose stored checksum 99
differs from the recomputed checksum 90. -/
theorem generate_signed_image_checksum_reject_witness :
    generate_signed_image
      ⟨4, fun _ => 10, fun a b c d e f => a + b + c + d + e + f, some 1,
        true, some 1, true⟩
      ⟨some [1, 10, 0, 0, 2, 77, 99, 5], 0, 0, 1, 1, 0⟩
      = (false, []) :=
  generate_signed_image_checksum_reject
    ⟨4, fun _ => 10, fun a b c d e f => a + b + c + d + e + f, some 1,
      true, some 1, true⟩
    ⟨some [1, 10, 0, 0, 2, 77, 99, 5], 0, 0, 1, 1, 0⟩
    1 10 0 0 2 77 99 [5] rfl (by decide) (by decide) (by decide) (by decide)

/-- C3 (code evaluation): in reused-chain mode with a well-formed subkey
header whose checksum verifies, GenerateSignedImage returns success with an
empty trace — it never calls GenerateKernelBlob or AddKernelSignature, so
no fresh body signature is computed and no new preamble is produced; the
fresh-chain mode on the same environment does invoke all three signing
primitives. -/
theorem generate_signed_image_reuse_skips_signing :
    generate_signed_image
      ⟨4, fun _ => 10, fun a b c d e f => a + b + c + d + e + f, some 1,
        true, some 1, true⟩
      ⟨some [1, 10, 0, 0, 2, 77, 90, 42], 0, 0, 1, 1, 0⟩
      = (true, []) ∧
    generate_signed_image
      ⟨4, fun _ => 10, fun a b c d e f => a + b + c + d + e + f, some 1,
        true, some 1, true⟩
      ⟨none, 0, 0, 1, 1, 0⟩
      = (true, [KAction.addKernelKeySignature, KAction.generateKernelBlob,
          KAction.addKernelSignature]) := by
  constructor
  · decide
  · decide

/-- The GBB header fields read by the show path. -/
structure GbbHeader where
  major_version : Nat
  minor_version : Nat
  gflags : Nat
  hwid_offset : Nat
  hwid_size : Nat
  rootkey_offset : Nat
  rootkey_size : Nat
  recovery_key_offset : Nat
  recovery_key_size : Nat
deriving DecidableEq

/-- Oracle environment for the show path. parse_gbb and parse_packed_key
model the C pointer casts into the mapped buffer; futil_valid_gbb is the
GBB header validator (returning validity and the computed maximum length);
show_fw_preamble_buf is the VBLOCK show routine of vb1_helper.c.
Modelled from the spec: vb1_helper.c is not under src/; per the spec,
verification/show routines read the area and update only the in-memory
slot state, never the image bytes, so the routine returns a status and an
updated state only. -/
structure ShowEnv where
  parse_gbb : List Nat → GbbHeader
  parse_packed_key : List Nat → PackedKey
  futil_valid_gbb : GbbHeader → Nat → Bool × Nat
  packed_key_ok : PackedKey → Nat → Bool
  show_fw_preamble_buf : String → List Nat → Nat → BiosState → Nat × BiosState

/-- Embedding of show_gbb_buf (file_type_bios.c): prints the GBB header,
and on a valid header records the root and recovery key views in the state
(when one was supplied) and marks the GBB area valid when both keys look
ok. Only the state is written; the buffer is only read. -/
def show_gbb_buf (env : ShowEnv) (buf : List Nat) (len : Nat)
    (state : Option BiosState) : Nat × Option BiosState :=
  if len = 0 then (1, state)
  else
    let gbb := env.parse_gbb buf
    if (env.futil_valid_gbb gbb len).1 = false then (1, state)
    else
      let rk := env.parse_packed_key (buf.drop gbb.rootkey_offset)
      let s1 : Nat × Option BiosState :=
        if env.packed_key_ok rk gbb.rootkey_size then
          (0, state.map fun st => { st with rootkey :=
            { offset := (st.get .GBB).offset + gbb.rootkey_offset,
              buf := buf.drop gbb.rootkey_offset,
              len := gbb.rootkey_size, is_valid := true } })
        else (1, state)
      let rck := env.parse_packed_key (buf.drop gbb.recovery_key_offset)
      let s2 : Nat × Option BiosState :=
        if env.packed_key_ok rck gbb.recovery_key_size then
          (s1.1, s1.2.map fun st => { st with recovery_key :=
            { offset := (st.get .GBB).offset + gbb.recovery_key_offset,
              buf := buf.drop gbb.recovery_key_offset,
              len := gbb.recovery_key_size, is_valid := true } })
        else (1, s1.2)
      if s2.1 = 0 then
        (s2.1, s2.2.map fun st =>
          st.set .GBB { st.get .GBB with is_valid := true })
      else (s2.1, s2.2)

/-- Embedding of fmap_show_fw_main (file_type_bios.c): nothing to show;
marks the current component's area valid when non-empty. -/
def fmap_show_fw_main (len : Nat) (state : BiosState) : Nat × BiosState :=
  if len = 0 then (1, state)
  else (0, state.set state.c { state.get state.c with is_valid := true })

/-- The loop order of ft_show_bios over enum bios_component. -/
def bios_components : List BiosComponent :=
  [.GBB, .FW_MAIN_A, .FW_MAIN_B, .VBLOCK_A, .VBLOCK_B]

/-- One iteration of the ft_show_bios loop: resolve the component's area,
clamp it, record the view in the state, and dispatch to the show routine
of the component kind (the fmap_show_fn table). The image is only read. -/
def show_one (env : ShowEnv) (img : Image) (acc : Nat × BiosState)
    (c : BiosComponent) : Nat × BiosState :=
  match fmap_find_by_name img (fmap_name c) with
  | none => acc
  | some ah0 =>
    let ah := fmap_limit_area ah0 img.len
    let st1 := { acc.2 with c := c }
    let st2 := st1.set c { st1.get c with
      offset := ah.area_offset,
      buf := img.buf.drop ah.area_offset,
      len := ah.area_size }
    let r : Nat × BiosState :=
      match c with
      | .GBB =>
        let rg := show_gbb_buf env ((st2.get c).buf) ((st2.get c).len)
          (some st2)
        (rg.1, rg.2.getD st2)
      | .FW_MAIN_A => fmap_show_fw_main ((st2.get c).len) st2
      | .FW_MAIN_B => fmap_show_fw_main ((st2.get c).len) st2
      | .VBLOCK_A =>
        env.show_fw_preamble_buf (fmap_name c) ((st2.get c).buf)
          ((st2.get c).len) st2
      | .VBLOCK_B =>
        env.show_fw_preamble_buf (fmap_name c) ((st2.get c).buf)
          ((st2.get c).len) st2
    (acc.1 + r.1, r.2)

/-- Embedding of ft_show_bios (file_type_bios.c): maps the file read-only,
walks the five components and shows each, returning the accumulated status
together with the (unchanged) image it operated on. -/
def ft_show_bios (env : ShowEnv) (img : Image) :
    Nat × Image × BiosState :=
  let r := bios_components.foldl (show_one env img) (0, {})
  (r.1, img, r.2)

/-- Embedding of ft_show_gbb (file_type_bios.c): maps the file read-only
and shows it as a GBB, returning the status, the (unchanged) image and the
state show_gbb_buf produced. -/
def ft_show_gbb (env : ShowEnv) (img : Image) (data : Option BiosState) :
    Nat × Image × Option BiosState :=
  let r := show_gbb_buf env img.buf img.len data
  (r.1, img, r.2)

/-- C9: the verification/show path never mutates the image: after
ft_show_bios or ft_show_gbb the backing buffer is byte-for-byte the input
buffer. The embedding threads the mapped image through every show routine;
no routine produces an updated buffer, mirroring that the C show code
contains no store through the mapped pointer (the file is mapped
read-only). -/
theorem ft_show_never_mutates (env : ShowEnv) (img : Image)
    (data : Option BiosState) :
    (ft_show_bios env img).2.1 = img ∧
    (ft_show_gbb env img data).2.1 = img :=
  ⟨rfl, rfl⟩

/-- Witness for C9 at a concrete environment and the concrete slot-A
image. -/
theorem ft_show_never_mutates_witness :
    (ft_show_bios
      ⟨fun _ => ⟨0, 0, 0, 0, 0, 0, 0, 0, 0⟩, fun _ => ⟨0, 0, 0⟩,
        fun _ _ => (true, 0), fun _ _ => true, fun _ _ _ st => (0, st)⟩
      slotA_img).2.1 = slotA_img ∧
    (ft_show_gbb
      ⟨fun _ => ⟨0, 0, 0, 0, 0, 0, 0, 0, 0⟩, fun _ => ⟨0, 0, 0⟩,
        fun _ _ => (true, 0), fun _ _ => true, fun _ _ _ st => (0, st)⟩
      slotA_img none).2.1 = slotA_img :=
  ft_show_never_mutates
    ⟨fun _ => ⟨0, 0, 0, 0, 0, 0, 0, 0, 0⟩, fun _ => ⟨0, 0, 0⟩,
      fun _ _ => (true, 0), fun _ _ => true, fun _ _ _ st => (0, st)⟩
    slotA_img none

end Vboot
